import Mathlib

/-!
Verification of `wizardhat/plot/plot.py` (the `Lines` bokeh-server plotter).

The embedding models:
  * the display window held by the bokeh `ColumnDataSource` as an association
    list from channel name to its column of values (`Columns`);
  * `Lines._update` (one streaming-append per accepted batch);
  * one iteration of `Lines._get_new_samples` (the forwarder thread's cycle:
    wait on `data.updated`, build `data_dict`, try to schedule the update,
    clear the signal);
  * the palette lookup of `Lines.__init__` and the per-channel color use in
    `Lines._set_layout`;
  * `Lines.run_server` and the `autostart` branch of `Lines.__init__` as a
    trace of server-side actions.

External collaborators (bokeh's `ColumnDataSource.stream` and its palette
table) are modelled from the spec's statement of their contract, since their
code is not part of this repository.
-/

namespace WizardHat

/-- The display window of the renderer: one ordered column of values per
channel name, as held by the bokeh `ColumnDataSource`. -/
abbrev Columns := List (String × List Int)

/-- Modelled from the spec: bokeh's streaming-append on one column — it
"appends the batch's values to each channel's window and evicts from the
front until the window length constraint holds" (`rollover` many kept). -/
def streamColumn (col new : List Int) (rollover : Nat) : List Int :=
  (col ++ new).drop ((col ++ new).length - rollover)

/-- Modelled from the spec: bokeh's `ColumnDataSource.stream(new_data,
rollover)` applies the streaming-append to every column of the source,
reading the batch's values for that column's name. -/
def streamCDS (source : Columns) (newData : String → List Int)
    (rollover : Nat) : Columns :=
  source.map (fun p => (p.1, streamColumn p.2 (newData p.1) rollover))

/-- `Lines._update(data_dict)`: `self._source.stream(data_dict,
self._n_samples)` (plot.py lines 120-122). -/
def linesUpdate (source : Columns) (dataDict : String → List Int)
    (nSamples : Nat) : Columns :=
  streamCDS source dataDict nSamples

/-- The external `data.Data` collaborator as seen by the forwarder:
its dtype's field names (the implicit "time" field included), the
most-recent-samples view per field, and the readiness signal. -/
structure DataSource where
  dtypeNames : List String
  lastSamples : String → List Int
  updated : Bool

/-- A forwarded sample batch: the `data_dict` Python dict, keys in insertion
order. -/
abbrev Batch := List (String × List Int)

/-- Python dict insertion: replace the value when the key is present,
append a new entry otherwise. -/
def dictInsert (d : Batch) (k : String) (v : List Int) : Batch :=
  if d.any (fun p => p.1 == k) then
    d.map (fun p => if p.1 == k then (k, v) else p)
  else d ++ [(k, v)]

/-- Python dict lookup returning `none` for a missing key. -/
def dictLookup (d : Batch) (k : String) : Option (List Int) :=
  (d.find? (fun p => p.1 == k)).map Prod.snd

/-- `data_dict = {name: self.data.last_samples[name] for name in
self.data.dtype.names}` (plot.py lines 127-128). -/
def forwardedBatch (src : DataSource) : Batch :=
  src.dtypeNames.foldl (fun d name => dictInsert d name (src.lastSamples name)) []

/-- The forwarder's view of the plotter: the external data source and
`self._curdoc`, which is absent (`none`) until `_app_manager` has run and
otherwise carries the document's queue of pending next-tick callbacks
(each one a partially applied `_update` holding its batch). -/
structure ForwarderState where
  src : DataSource
  curdoc : Option (List Batch)

/-- `curdoc.add_next_tick_callback(partial(self._update, data_dict))`:
enqueues the update onto the document's next loop iteration; accessing
`self._curdoc` before `_app_manager` has run raises `AttributeError`. -/
def addNextTickCallback (curdoc : Option (List Batch)) (b : Batch) :
    Except String (List Batch) :=
  match curdoc with
  | some pending => Except.ok (pending ++ [b])
  | none => Except.error "AttributeError"

/-- One iteration of the `while True` loop of `Lines._get_new_samples`
(plot.py lines 125-134), entered after `self.data.updated.wait()` returns:
build `data_dict`, `try` the next-tick handoff, `except AttributeError:
pass`, then `self.data.updated.clear()`. An uncaught exception (anything
other than `AttributeError`) propagates before the signal is cleared. -/
def forwardCycle (s : ForwarderState) : Except String ForwarderState :=
  let dataDict := forwardedBatch s.src
  match addNextTickCallback s.curdoc dataDict with
  | Except.ok pending =>
      Except.ok { s with curdoc := some pending,
                         src := { s.src with updated := false } }
  | Except.error e =>
      if e = "AttributeError" then
        Except.ok { s with src := { s.src with updated := false } }
      else Except.error e

/-- `Lines._app_manager(curdoc)`: stores the fresh per-connection document
(which has no pending callbacks of ours yet) in `self._curdoc`. -/
def appManager (s : ForwarderState) : ForwarderState :=
  { s with curdoc := some [] }

/-- The cooperative loop draining the document's pending next-tick
callbacks: each one runs `Lines._update` with its captured batch. -/
def runPending (window : Columns) (pending : List Batch) (n : Nat) : Columns :=
  pending.foldl (fun w b => linesUpdate w (fun name => (dictLookup b name).getD []) n) window

/-- Modelled from the spec: bokeh's `all_palettes['Category10']` — "the
default 'Category10' palette only provides sizes 3 through 10"; the palette
sized `k` is a list of `k` color strings (their hex values are irrelevant to
the claims, so the entry at index `i` of size `k` is rendered abstractly). -/
def category10 (k : Nat) : Option (List String) :=
  if 3 ≤ k ∧ k ≤ 10 then
    some ((List.range k).map (fun i => "Category10/" ++ toString k ++ "/" ++ toString i))
  else none

/-- Modelled from the spec: bokeh's `all_palettes` dict, "a fixed palette";
only the Category10 entry is relevant to this module's default, every other
name is left absent. -/
def allPalettes (palette : String) (k : Nat) : Option (List String) :=
  if palette = "Category10" then category10 k else none

/-- `self._colors = palettes[palette][len(self.data.ch_names)]`
(`Lines.__init__`, plot.py line 82); `none` models a `KeyError` escaping the
constructor. -/
def linesColors (palette : String) (chNames : List String) : Option (List String) :=
  allPalettes palette chNames.length

/-- `p.line(x='time', y=ch, ..., color=self._colors[i], source=self._source)`
for the channel at index `i` (`Lines._set_layout`, plot.py lines 111-112). -/
def lineColor (palette : String) (chNames : List String) (i : Nat) : Option String :=
  (linesColors palette chNames).bind (fun cs => cs.get? i)

/-- The externally visible actions of `Lines.run_server`
(plot.py lines 88-92), in program order. -/
inductive ServerAction where
  | serverStart
  | addCallbackShow
  | updateThreadStart
  | ioLoopStart
  deriving DecidableEq, Repr

/-- `self.server.start()`: binds the HTTP-addressable server endpoint. -/
def serverStartStep (t : List ServerAction) : List ServerAction :=
  t ++ [ServerAction.serverStart]

/-- `self.server.io_loop.add_callback(self.server.show, '/')`: schedules
opening a client view. -/
def showCallbackStep (t : List ServerAction) : List ServerAction :=
  t ++ [ServerAction.addCallbackShow]

/-- `self._update_thread.start()`: starts the background forwarding thread. -/
def updateThreadStep (t : List ServerAction) : List ServerAction :=
  t ++ [ServerAction.updateThreadStart]

/-- `self.server.io_loop.start()`: runs the cooperative loop; it blocks, so
nothing in `run_server` executes after it. -/
def ioLoopStep (t : List ServerAction) : List ServerAction :=
  t ++ [ServerAction.ioLoopStart]

/-- `Lines.run_server` (plot.py lines 88-92): its four statements in source
order, appended to the action trace `t`. -/
def runServer (t : List ServerAction) : List ServerAction :=
  ioLoopStep (updateThreadStep (showCallbackStep (serverStartStep t)))

/-- The tail of `Lines.__init__` (plot.py lines 85-86):
`if autostart: self.run_server()`. -/
def linesInitAutostart (autostart : Bool) (t : List ServerAction) :
    List ServerAction :=
  if autostart then runServer t else t

/-- The default of the `autostart` keyword of `Lines.__init__`
(plot.py line 60). -/
def autostartDefault : Bool := true

end WizardHat

namespace WizardHat

/-- Auxiliary: the length a column has after one streaming-append. -/
lemma streamColumn_length (col new : List Int) (r : Nat) :
    (streamColumn col new r).length =
      col.length + new.length - (col.length + new.length - r) := by
  simp [streamColumn]

/-- C1: for every accepted batch, after `Lines._update` completes, each
channel's display window length is at most the configured maximum
`n_samples` (the rollover limit passed to `stream`). -/
theorem C1_window_length_le_nSamples (source : Columns)
    (dataDict : String → List Int) (nSamples : Nat)
    (p : String × List Int) (hp : p ∈ linesUpdate source dataDict nSamples) :
    p.2.length ≤ nSamples := by
  simp only [linesUpdate, streamCDS, List.mem_map] at hp
  obtain ⟨q, _, rfl⟩ := hp
  simp only [streamColumn_length]
  omega

/-- Witness for C1 at a concrete input: a window of length 2 streamed with a
one-sample batch under rollover 2 yields the member `("ch", [2, 3])`, whose
length is at most 2. -/
theorem C1_window_length_le_nSamples_witness :
    (("ch", ([2, 3] : List Int)) ∈
        linesUpdate [("ch", [1, 2])] (fun _ => [3]) 2) ∧
      ([2, 3] : List Int).length ≤ 2 :=
  ⟨by decide,
   C1_window_length_le_nSamples [("ch", [1, 2])] (fun _ => [3]) 2
     ("ch", [2, 3]) (by decide)⟩

/-- C2: with a display window of size 3, applying the single-sample batches
[1], [2], [3], [4] through `Lines._update` leaves the window holding
exactly [2, 3, 4] in order (oldest entries evicted FIFO). -/
theorem C2_fifo_eviction :
    linesUpdate (linesUpdate (linesUpdate (linesUpdate
        [("ch", [])] (fun _ => [1]) 3) (fun _ => [2]) 3)
        (fun _ => [3]) 3) (fun _ => [4]) 3
      = [("ch", [2, 3, 4])] := by
  decide

/-- C3: if the render context does not yet exist (`self._curdoc` unset), the
forwarder's submission does not raise (`AttributeError` is caught), the batch
is dropped, and — the cycle's only effect being the cleared signal, with the
context still absent and the freshly created document's callback queue empty —
no retroactive replay reaches the display window once the context exists. -/
theorem C3_missing_context_drops_batch (s : ForwarderState) (w : Columns)
    (n : Nat) (h : s.curdoc = none) :
    ∃ s₂, forwardCycle s = Except.ok s₂ ∧
      s₂ = { s with src := { s.src with updated := false } } ∧
      s₂.curdoc = none ∧
      (appManager s₂).curdoc = some [] ∧
      runPending w (((appManager s₂).curdoc).getD []) n = w := by
  refine ⟨{ s with src := { s.src with updated := false } }, ?_, rfl, ?_, rfl, rfl⟩
  · simp [forwardCycle, addNextTickCallback, h]
  · simpa using h

/-- Witness for C3 at a concrete forwarder state whose context is absent. -/
theorem C3_missing_context_drops_batch_witness :
    ∃ s₂, forwardCycle ⟨⟨["time", "ch"], fun _ => [7], true⟩, none⟩
        = Except.ok s₂ ∧
      s₂ = { src := ⟨["time", "ch"], fun _ => [7], false⟩,
             curdoc := (none : Option (List Batch)) } ∧
      s₂.curdoc = none ∧
      (appManager s₂).curdoc = some [] ∧
      runPending [("ch", [1])] (((appManager s₂).curdoc).getD []) 3 = [("ch", [1])] := by
  have h := C3_missing_context_drops_batch ⟨⟨["time", "ch"], fun _ => [7], true⟩, none⟩
    [("ch", [1])] 3 rfl
  exact h

/-- C4: every forwarding cycle completes without an uncaught exception and
leaves the readiness signal cleared, whether the next-tick handoff succeeded
or failed with the (caught) missing-context error. -/
theorem C4_signal_cleared_every_cycle (s : ForwarderState) :
    ∃ s₂, forwardCycle s = Except.ok s₂ ∧ s₂.src.updated = false := by
  cases h : s.curdoc with
  | none =>
      refine ⟨{ s with src := { s.src with updated := false } }, ?_, rfl⟩
      simp [forwardCycle, addNextTickCallback, h]
  | some pending =>
      refine ⟨{ s with curdoc := some (pending ++ [forwardedBatch s.src]),
                       src := { s.src with updated := false } }, ?_, rfl⟩
      simp [forwardCycle, addNextTickCallback, h]

/-- C5: after `Lines._update`, all channels of the display window hold
sequences of equal length, provided all channels had equal length before and
the incoming batch has equal-length columns per channel. -/
theorem C5_equal_channel_lengths (source : Columns)
    (dataDict : String → List Int) (n L m : Nat)
    (hL : ∀ p ∈ source, (Prod.snd p).length = L)
    (hm : ∀ p ∈ source, (dataDict p.1).length = m)
    (p q : String × List Int)
    (hp : p ∈ linesUpdate source dataDict n)
    (hq : q ∈ linesUpdate source dataDict n) :
    p.2.length = q.2.length := by
  simp only [linesUpdate, streamCDS, List.mem_map] at hp hq
  obtain ⟨a, ha, rfl⟩ := hp
  obtain ⟨b, hb, rfl⟩ := hq
  simp only [streamColumn_length, hL a ha, hL b hb, hm a ha, hm b hb]

/-- Witness for C5: a two-channel window with equal column lengths, streamed
with a batch of one sample per channel, keeps its two channels equal. -/
theorem C5_equal_channel_lengths_witness :
    (∀ p ∈ ([("time", [0]), ("ch", [10])] : Columns), (Prod.snd p).length = 1) ∧
    (∀ p ∈ ([("time", [0]), ("ch", [10])] : Columns),
        ((fun _ => ([7] : List Int)) p.1).length = 1) ∧
    (("time", ([0, 7] : List Int)) ∈
        linesUpdate [("time", [0]), ("ch", [10])] (fun _ => [7]) 3) ∧
    (("ch", ([10, 7] : List Int)) ∈
        linesUpdate [("time", [0]), ("ch", [10])] (fun _ => [7]) 3) ∧
    ([0, 7] : List Int).length = ([10, 7] : List Int).length :=
  ⟨by decide, by decide, by decide, by decide,
   C5_equal_channel_lengths [("time", [0]), ("ch", [10])] (fun _ => [7]) 3 1 1
     (by decide) (by decide) ("time", [0, 7]) ("ch", [10, 7])
     (by decide) (by decide)⟩

/-- C7: color assignment is deterministic and stable — the colors array
depends only on the palette name and the channel count (so two runs, or two
channel lists of the same length, get identical colors), and the channel at
index `i` is plotted with the entry at index `i` of the palette sized to the
channel count. -/
theorem C7_colors_deterministic (palette : String) (ch₁ ch₂ : List String)
    (i : Nat) (h : ch₁.length = ch₂.length) :
    linesColors palette ch₁ = linesColors palette ch₂ ∧
    lineColor palette ch₁ i = (linesColors palette ch₁).bind (fun cs => cs.get? i) := by
  exact ⟨by simp [linesColors, h], rfl⟩

/-- Witness for C7: two distinct three-channel lists under the default
palette receive the same colors, and channel 1 gets palette entry 1. -/
theorem C7_colors_deterministic_witness :
    linesColors "Category10" ["a", "b", "c"] = linesColors "Category10" ["x", "y", "z"] ∧
    lineColor "Category10" ["a", "b", "c"] 1 =
      (linesColors "Category10" ["a", "b", "c"]).bind (fun cs => cs.get? 1) :=
  C7_colors_deterministic "Category10" ["a", "b", "c"] ["x", "y", "z"] 1 (by decide)

/-- C8: `run_server` performs, in order: bind the server endpoint, schedule
opening a client view, start the background forwarding thread, then run the
blocking cooperative loop as its final action; and `__init__` with the
default `autostart = True` invokes exactly `run_server`. -/
theorem C8_run_server_order :
    runServer [] = [ServerAction.serverStart, ServerAction.addCallbackShow,
      ServerAction.updateThreadStart, ServerAction.ioLoopStart] ∧
    (runServer []).getLast? = some ServerAction.ioLoopStart ∧
    linesInitAutostart autostartDefault [] = runServer [] := by
  exact ⟨rfl, rfl, rfl⟩

/-- C9: the constructor's palette lookup indexes the palette dict by the
exact channel count: for the default 'Category10' palette it fails
(`KeyError`, modelled as `none`) exactly when the channel count is outside
3..10, and when it succeeds the colors list has exactly channel-count
entries (no clamping or cycling). -/
theorem C9_palette_exact_lookup (chNames : List String) :
    (linesColors "Category10" chNames = none ↔
        ¬(3 ≤ chNames.length ∧ chNames.length ≤ 10)) ∧
    (∀ cs, linesColors "Category10" chNames = some cs →
        cs.length = chNames.length) := by
  constructor
  · by_cases h : 3 ≤ chNames.length ∧ chNames.length ≤ 10
    · simp [linesColors, allPalettes, category10, h]
    · simp [linesColors, allPalettes, category10, h]
  · intro cs hcs
    by_cases h : 3 ≤ chNames.length ∧ chNames.length ≤ 10
    · simp [linesColors, allPalettes, category10, h] at hcs
      simp [← hcs]
    · simp [linesColors, allPalettes, category10, h] at hcs

/-- Witness for C9: a 2-channel data source makes the Category10 lookup
fail (`KeyError`), and a 3-channel one yields exactly 3 colors. -/
theorem C9_palette_exact_lookup_witness :
    linesColors "Category10" ["c1", "c2"] = none ∧
    ∀ cs, linesColors "Category10" ["c1", "c2", "c3"] = some cs → cs.length = 3 :=
  ⟨(C9_palette_exact_lookup ["c1", "c2"]).1.mpr (by decide),
   (C9_palette_exact_lookup ["c1", "c2", "c3"]).2⟩

/-- Auxiliary: folding `dictInsert` over keys none of which is already
present appends one entry per key, in order. -/
lemma foldl_dictInsert_fresh (names : List String) (f : String → List Int)
    (d : Batch) (hnd : names.Nodup)
    (hdisj : ∀ n ∈ names, ∀ p ∈ d, p.1 ≠ n) :
    names.foldl (fun acc n => dictInsert acc n (f n)) d
      = d ++ names.map (fun n => (n, f n)) := by
  induction names generalizing d with
  | nil => simp
  | cons n rest ih =>
      have hany : d.any (fun p => p.1 == n) = false := by
        simp only [List.any_eq_false]
        intro p hp
        simpa using hdisj n (by simp) p hp
      have hstep : dictInsert d n (f n) = d ++ [(n, f n)] := by
        simp [dictInsert, hany]
      rw [List.foldl_cons, hstep,
        ih (d ++ [(n, f n)]) (List.Nodup.of_cons hnd)]
      · simp
      · intro m hm p hp
        rcases List.mem_append.mp hp with hd | hsing
        · exact hdisj m (by simp [hm]) p hd
        · have hpn : p = (n, f n) := by simpa using hsing
          subst hpn
          intro hcontra
          have hnm : n = m := hcontra
          exact (List.nodup_cons.mp hnd).1 (by rw [hnm]; exact hm)

/-- Auxiliary: with distinct dtype names, the forwarded `data_dict` is the
in-order list of (name, last-samples view) pairs. -/
lemma forwardedBatch_eq_map (src : DataSource) (hnd : src.dtypeNames.Nodup) :
    forwardedBatch src
      = src.dtypeNames.map (fun n => (n, src.lastSamples n)) := by
  simpa using
    foldl_dictInsert_fresh src.dtypeNames src.lastSamples [] hnd (by simp)

/-- Auxiliary: dict lookup on one cons cell. -/
lemma dictLookup_cons (p : String × List Int) (d : Batch) (k : String) :
    dictLookup (p :: d) k = if p.1 == k then some p.2 else dictLookup d k := by
  cases hb : (p.1 == k)
  · simp [dictLookup, List.find?_cons_of_neg, hb]
  · simp [dictLookup, List.find?_cons_of_pos, hb]

/-- Auxiliary: dict lookup over the in-order (name, value) list. -/
lemma dictLookup_map (names : List String) (f : String → List Int) (k : String) :
    dictLookup (names.map (fun n => (n, f n))) k
      = if k ∈ names then some (f k) else none := by
  induction names with
  | nil => simp [dictLookup]
  | cons n rest ih =>
      by_cases h : n = k
      · subst h
        simp [dictLookup_cons]
      · have hb : (n == k) = false := by simpa using h
        simp [dictLookup_cons, hb, ih, Ne.symm h]

/-- C10: in every forwarding cycle the forwarded batch has exactly one entry
per field name of the data source's dtype (the "time" field among them),
each holding that field's most-recent-samples view at observation time; no
field is omitted and no other key is present. -/
theorem C10_batch_covers_dtype (src : DataSource)
    (hnd : src.dtypeNames.Nodup) :
    (forwardedBatch src).map Prod.fst = src.dtypeNames ∧
    (∀ name ∈ src.dtypeNames,
        dictLookup (forwardedBatch src) name = some (src.lastSamples name)) ∧
    (∀ name, name ∉ src.dtypeNames →
        dictLookup (forwardedBatch src) name = none) := by
  refine ⟨?_, ?_, ?_⟩
  · rw [forwardedBatch_eq_map src hnd, List.map_map]
    simp [Function.comp_def]
  · intro name hn
    rw [forwardedBatch_eq_map src hnd, dictLookup_map]
    simp [hn]
  · intro name hn
    rw [forwardedBatch_eq_map src hnd, dictLookup_map]
    simp [hn]

/-- Witness for C10 at a concrete three-field data source (the "time" field
included): the batch's keys are exactly the dtype names, the "ch1" entry is
that field's most-recent view, and an unrelated key is absent. -/
theorem C10_batch_covers_dtype_witness :
    (["time", "ch1", "ch2"] : List String).Nodup ∧
    (forwardedBatch ⟨["time", "ch1", "ch2"],
        (fun n => if n == "time" then [0] else [5]), true⟩).map Prod.fst
      = ["time", "ch1", "ch2"] ∧
    dictLookup (forwardedBatch ⟨["time", "ch1", "ch2"],
        (fun n => if n == "time" then [0] else [5]), true⟩) "ch1" = some [5] ∧
    dictLookup (forwardedBatch ⟨["time", "ch1", "ch2"],
        (fun n => if n == "time" then [0] else [5]), true⟩) "other" = none :=
  ⟨by decide,
   (C10_batch_covers_dtype ⟨["time", "ch1", "ch2"],
      (fun n => if n == "time" then [0] else [5]), true⟩ (by decide)).1,
   (C10_batch_covers_dtype ⟨["time", "ch1", "ch2"],
      (fun n => if n == "time" then [0] else [5]), true⟩ (by decide)).2.1
     "ch1" (by decide),
   (C10_batch_covers_dtype ⟨["time", "ch1", "ch2"],
      (fun n => if n == "time" then [0] else [5]), true⟩ (by decide)).2.2
     "other" (by decide)⟩

end WizardHat
